import Mathlib

/-!
Formal model of the downloader-ctl terminal dashboard (src/main.rs).

The Rust program keeps one shared `App` value: the current download list,
the selection cursor, the input mode, the text-entry buffer and the
last-refresh instant.  A background task refreshes the list over HTTP and
the interactive loop interprets key events.  We embed the state type, the
status model with its serde-derived wire codec, the state-mutating
operations, the per-key-event step of the interactive loop, and the
lock/network step structure of the spawned tasks, and prove or refute the
specified properties about them.

Modelling conventions:
* `chrono::DateTime<Utc>` and `std::time::Instant` carry no behaviour that
  the verified properties depend on; both are modelled as integer
  timestamps.
* Network interaction is passed in explicitly: a fetch receives the HTTP
  response it would observe, a control call receives the response as a
  function of the URL it posts to.
* Rust `usize`/`u32` values are modelled as `Nat`; the one narrowing cast
  in the program (`i as i32` in `select_previous`) is modelled exactly,
  with twos-complement reduction into the `i32` range.
* The `catch_unwind` poisoning branches around lock acquisition never
  fire in the model (no panics are modelled); the `Ok` path is embedded.
-/

/-- A JSON value, the wire format of the remote service. -/
inductive Json where
  | null
  | bool (b : Bool)
  | str (s : String)
  | num (n : Int)
  | arr (elems : List Json)
  | obj (fields : List (String × Json))

/-- The download status domain, exactly the variants of the Rust enum
`DownloadStatus` (src/main.rs lines 28-42), in declaration order. -/
inductive DownloadStatus where
  | Downloading
  | Initializing
  | Retrying
  | RetryingWithMessage (msg : String)
  | Offline
  | Paused
  | PausedForExclusiveShow
  | PausedForTicketShow
  | Error
  | ErrorWithMessage (msg : String)
  | Completed
  deriving DecidableEq, Repr

/-- Embedding of `impl Display for DownloadStatus` (src/main.rs lines
44-60): the keyword of the variant, followed by a colon-space and the
message for the two message-carrying variants. -/
def DownloadStatus.display : DownloadStatus → String
  | .Downloading => "Downloading"
  | .Initializing => "Initializing"
  | .Retrying => "Retrying"
  | .RetryingWithMessage msg => "Retrying: " ++ msg
  | .Offline => "Offline"
  | .Paused => "Paused"
  | .PausedForExclusiveShow => "Paused for Exclusive Show"
  | .PausedForTicketShow => "Paused for Ticket Show"
  | .Error => "Error"
  | .ErrorWithMessage msg => "Error: " ++ msg
  | .Completed => "Completed"

/-- Embedding of the serde `Deserialize` derive for `DownloadStatus`.  The
Rust enum carries `#[serde(untagged)]` (src/main.rs line 29), so the
derived deserializer tries the variants in declaration order against the
JSON content: a unit variant accepts exactly JSON `null` (so `null`
matches `Downloading`, the first unit variant), and a `String` newtype
variant accepts any JSON string (so every string matches
`RetryingWithMessage`, the first such variant).  No other JSON content
matches any variant, which is a deserialization error. -/
def DownloadStatus.deserialize : Json → Option DownloadStatus
  | .null => some .Downloading
  | .str s => some (.RetryingWithMessage s)
  | _ => none

/-- A download record, the fields of the Rust struct `Download`
(src/main.rs lines 62-69).  The two `DateTime<Utc>` fields are modelled
as integer timestamps and `retryCount : u32` as a `Nat`. -/
structure Download where
  modelName : String
  status : DownloadStatus
  startTime : Int
  lastStatusChange : Int
  retryCount : Nat
  deriving DecidableEq, Repr

/-- First value bound to a key in the field list of a JSON object. -/
def Json.lookupField : List (String × Json) → String → Option Json
  | [], _ => none
  | (k, v) :: rest, key => if k = key then some v else Json.lookupField rest key

/-- A JSON string, when the value is one. -/
def Json.asString : Json → Option String
  | .str s => some s
  | _ => none

/-- An integer timestamp, when the value is a JSON number (the
`DateTime<Utc>` wire decoding, abstracted to reading the instant). -/
def Json.asTimestamp : Json → Option Int
  | .num n => some n
  | _ => none

/-- A `u32`, when the value is a JSON number in the `u32` range. -/
def Json.asU32 : Json → Option Nat
  | .num n => if 0 ≤ n ∧ n < 2 ^ 32 then some n.toNat else none
  | _ => none

/-- Embedding of the serde `Deserialize` derive for `Download`: a JSON
object whose five fields all decode; a failing field (in particular an
unparsable `status`) fails the whole record. -/
def Download.deserialize : Json → Option Download
  | .obj fields => do
      let name ← (Json.lookupField fields "modelName").bind Json.asString
      let st ← (Json.lookupField fields "status").bind DownloadStatus.deserialize
      let start ← (Json.lookupField fields "startTime").bind Json.asTimestamp
      let change ← (Json.lookupField fields "lastStatusChange").bind Json.asTimestamp
      let retries ← (Json.lookupField fields "retryCount").bind Json.asU32
      some ⟨name, st, start, change, retries⟩
  | _ => none

/-- Decoding of the `GET /downloads` body (`response.json::<Vec<Download>>()`):
a JSON array each of whose records decodes.  `mapM` is all-or-nothing: one
failing record fails the whole list, no partial list is produced. -/
def decodeDownloadList : Json → Option (List Download)
  | .arr elems => elems.mapM Download.deserialize
  | _ => none

/-- The input-mode enum of the interactive loop (src/main.rs lines 81-85). -/
inductive InputMode where
  | Normal
  | AddingDownload
  deriving DecidableEq, Repr

/-- The application state (the Rust struct `App`, src/main.rs lines
71-79), restricted to its data fields: the HTTP client is connection
configuration with no bearing on state evolution, and `last_refresh :
Instant` is an integer tick. -/
structure App where
  downloader_url : String
  downloads : List Download
  selected_download : Option Nat
  input_mode : InputMode
  input_buffer : String
  last_refresh : Nat
  deriving DecidableEq, Repr

/-- Outcome of the HTTP round trip performed by a fetch: either the
transport failed (`send()` returned `Err`) or a response arrived with a
status code and a body. -/
inductive FetchResponse where
  | transportErr
  | ok (status : Nat) (body : Json)

/-- Embedding of `App::fetch_downloads` (src/main.rs lines 100-111).  The
response the GET observes is an argument; `now` is the tick stamped into
`last_refresh` on success.  Returns the state after the call and the
diagnostic message when the call failed.  As in the Rust, the state is
assigned only after the status check and a complete decode succeed; every
failure path returns before any field is written, so it carries the state
through unchanged. -/
def App.fetch_downloads (app : App) (resp : FetchResponse) (now : Nat) :
    App × Option String :=
  match resp with
  | .transportErr => (app, some "transport error")
  | .ok status body =>
      if 200 ≤ status ∧ status ≤ 299 then
        match decodeDownloadList body with
        | some list =>
            ({ app with downloads := list, last_refresh := now }, none)
        | none => (app, some "decode error")
      else
        (app, some "Failed to fetch downloads")

/-- Embedding of `App::select_next` (src/main.rs lines 153-163). -/
def App.select_next (app : App) : App :=
  if app.downloads.isEmpty then
    { app with selected_download := none }
  else
    { app with selected_download :=
        match app.selected_download with
        | none => some 0
        | some i => some (min (i + 1) (app.downloads.length - 1)) }

/-- Twos-complement reduction of an integer into the `i32` range, the
semantics of the wrapping conversions Rust performs into `i32`. -/
def wrap32 (z : Int) : Int :=
  (z + 2 ^ 31) % 2 ^ 32 - 2 ^ 31

/-- The Rust cast `i as i32` for `i : usize`: truncation to the low 32
bits read as a twos-complement `i32`. -/
def i32ofUsize (n : Nat) : Int :=
  wrap32 n

/-- Embedding of `App::select_previous` (src/main.rs lines 165-175).  The
Rust computes `std::cmp::max(i as i32 - 1, 0) as usize`: the index is
narrowed to `i32`, decremented (wrapping semantics for the one value where
the decrement leaves the `i32` range), clamped below by 0, and the
non-negative result widened back to `usize`. -/
def App.select_previous (app : App) : App :=
  if app.downloads.isEmpty then
    { app with selected_download := none }
  else
    { app with selected_download :=
        match app.selected_download with
        | none => some 0
        | some i => some (max (wrap32 (i32ofUsize i - 1)) 0).toNat }

/-- Embedding of `App::selected_model_name` (src/main.rs lines 177-179).
The Rust indexes `self.downloads[i]`, which panics when the selection is
out of range; the out-of-range case is modelled as `none`. -/
def App.selected_model_name (app : App) : Option String :=
  app.selected_download.bind fun i => (app.downloads.get? i).map Download.modelName

/-- The selection invariant of the data model: a selected index is a
valid index of the download list (hence the list is non-empty whenever an
index is selected, and an empty list forces no selection). -/
def App.selectionOk (app : App) : Bool :=
  match app.selected_download with
  | none => true
  | some i => decide (i < app.downloads.length)

/-- Response of a control POST: transport failure or a status code. -/
inductive ControlResponse where
  | transportErr
  | ok (status : Nat)
  deriving DecidableEq, Repr

/-- The URL `App::control_download` builds (src/main.rs line 143):
`format!` of the downloader URL, the model name and the action joined by
slashes — note there is no `/downloads` path segment. -/
def controlUrl (base model_name action : String) : String :=
  base ++ "/" ++ model_name ++ "/" ++ action

/-- The URL the specification prescribes for a control action, following
the words of the spec: `POST {base}/downloads/{name}/{action}`. -/
def specControlUrl (base model_name action : String) : String :=
  base ++ "/downloads/" ++ model_name ++ "/" ++ action

/-- Embedding of `App::control_download` (src/main.rs lines 142-151).
`net` gives the response of the POST as a function of the URL posted to;
the call succeeds exactly when that response has a 2xx status. -/
def App.control_download (app : App) (model_name action : String)
    (net : String → ControlResponse) : Except String Unit :=
  match net (controlUrl app.downloader_url model_name action) with
  | .transportErr => .error "transport error"
  | .ok status =>
      if 200 ≤ status ∧ status ≤ 299 then .ok ()
      else .error ("Failed to " ++ action ++ " download")

/-- One key event, covering the key codes `run_app` distinguishes
(src/main.rs lines 245-465): enter, escape, backspace, a character, the
arrow keys, and anything else. -/
inductive KeyEvent where
  | enter
  | esc
  | backspace
  | char (c : Char)
  | down
  | up
  | other
  deriving DecidableEq, Repr

/-- An asynchronous unit of work dispatched by the interactive loop:
a spawned create (the Enter arm), a spawned control action (the s/r/p
arms), or the quit of the loop itself. -/
inductive UiAction where
  | createDownload (url : String)
  | control (model_name : String) (verb : String)
  | quit
  deriving DecidableEq, Repr

/-- One iteration of the interactive loop on one key event (the match on
`input_mode` and `key.code` in `run_app`, src/main.rs lines 258-466):
the state after the locked mutations of that arm, together with the
actions the arm dispatches.  In `Normal` mode: `q` quits; `a` enters
add-mode; `s`/`r`/`p` dispatch a control action for the selected model
name when one exists; `j`/down and `k`/up move the selection.  In
`AddingDownload` mode: Enter drains the buffer, returns to `Normal` and
spawns the create task with the drained text (unconditionally — the code
has no emptiness check); a character is appended; Backspace pops the last
character; Escape clears the buffer and returns to `Normal`. -/
def step (app : App) (k : KeyEvent) : App × List UiAction :=
  match app.input_mode with
  | .Normal =>
      match k with
      | .char 'q' => (app, [.quit])
      | .char 'a' => ({ app with input_mode := .AddingDownload }, [])
      | .char 's' =>
          (app, match app.selected_model_name with
                | some n => [.control n "stop"]
                | none => [])
      | .char 'r' =>
          (app, match app.selected_model_name with
                | some n => [.control n "restart"]
                | none => [])
      | .char 'p' =>
          (app, match app.selected_model_name with
                | some n => [.control n "pause"]
                | none => [])
      | .char 'j' => (app.select_next, [])
      | .down => (app.select_next, [])
      | .char 'k' => (app.select_previous, [])
      | .up => (app.select_previous, [])
      | _ => (app, [])
  | .AddingDownload =>
      match k with
      | .enter =>
          ({ app with input_buffer := "", input_mode := .Normal },
           [.createDownload app.input_buffer])
      | .char c => ({ app with input_buffer := app.input_buffer.push c }, [])
      | .backspace => ({ app with input_buffer := app.input_buffer.dropRight 1 }, [])
      | .esc => ({ app with input_mode := .Normal, input_buffer := "" }, [])
      | _ => (app, [])

/-- The state after the interactive loop processes a sequence of key
events (the dispatched actions are discarded). -/
def run (app : App) (ks : List KeyEvent) : App :=
  ks.foldl (fun a k => (step a k).1) app

/-- A primitive step of a spawned unit of work, for the lock-discipline
model: acquire the state lock, release it, perform a network round trip,
or mutate the application state. -/
inductive TaskStep where
  | lock
  | unlock
  | net
  | mutate
  deriving DecidableEq, Repr

/-- The step structure of one tick of the background refresh task
(src/main.rs lines 200-218): the task locks the state, then
`fetch_downloads` — still under the guard — performs the HTTP round trip
and on success commits the list and the timestamp, and only then is the
guard dropped. -/
def refreshTick : List TaskStep :=
  [.lock, .net, .mutate, .unlock]

/-- The step structure of a spawned stop/restart/pause task (src/main.rs
lines 281-306): the task locks the state and performs the control POST
under the guard, drops the guard, then locks again and performs the
trailing `fetch_downloads` (network plus commit) under the second
guard. -/
def controlActionTask : List TaskStep :=
  [.lock, .net, .unlock, .lock, .net, .mutate, .unlock]

/-- Whether a step list performs a network round trip while the lock is
held, scanning with the current lock depth. -/
def netWhileLocked : List TaskStep → Nat → Bool
  | [], _ => false
  | .lock :: rest, d => netWhileLocked rest (d + 1)
  | .unlock :: rest, d => netWhileLocked rest (d - 1)
  | .net :: rest, d => decide (0 < d) || netWhileLocked rest d
  | .mutate :: rest, d => netWhileLocked rest d

/-- Number of separate lock acquisitions a step list performs. -/
def lockCount (steps : List TaskStep) : Nat :=
  steps.countP (fun s => s == TaskStep.lock)

/-! Concrete fixtures used by the witnesses and counterexamples. -/

/-- A download record as the untagged codec actually produces it from the
wire status string "Downloading". -/
def dlA : Download :=
  ⟨"a", .RetryingWithMessage "Downloading", 0, 0, 0⟩

/-- A second download record, wire status string "Offline". -/
def dlB : Download :=
  ⟨"b", .RetryingWithMessage "Offline", 0, 0, 0⟩

/-- The JSON wire record for `dlA`. -/
def jsonRecordA : Json :=
  .obj [("modelName", .str "a"), ("status", .str "Downloading"),
        ("startTime", .num 0), ("lastStatusChange", .num 0), ("retryCount", .num 0)]

/-- A wire record whose status field is not decodable (a JSON number). -/
def jsonRecordBad : Json :=
  .obj [("modelName", .str "c"), ("status", .num 5),
        ("startTime", .num 0), ("lastStatusChange", .num 0), ("retryCount", .num 0)]

/-- A state holding two downloads with the second one selected. -/
def appAB : App :=
  ⟨"http://h", [dlA, dlB], some 1, .Normal, "", 0⟩

/-- A state in add-mode with a non-empty input buffer. -/
def appAdd : App :=
  ⟨"http://h", [], none, .AddingDownload, "http://x", 0⟩

/-- A state in add-mode with an empty input buffer. -/
def appAddEmpty : App :=
  ⟨"http://h", [], none, .AddingDownload, "", 0⟩

/-- A network that answers 2xx exactly at the URL the specification
prescribes for stopping model "m", and fails transport everywhere else. -/
def specOnlyNet : String → ControlResponse := fun u =>
  if u = specControlUrl "http://h" "m" "stop" then .ok 200 else .transportErr

/-- A state whose download list is long enough for index 2 ^ 31 + 1 to be
valid, with that index selected. -/
def appHuge : App :=
  ⟨"http://h", List.replicate (2 ^ 31 + 2) dlA, some (2 ^ 31 + 1), .Normal, "", 0⟩

/-- Evaluation of `select_previous` on a state with a non-empty list and a
selected index, in terms of the narrowing-cast arithmetic. -/
theorem select_previous_eval (app : App) (d : Download) (ds : List Download) (i : Nat)
    (hd : app.downloads = d :: ds) (hs : app.selected_download = some i) :
    app.select_previous.selected_download =
      some (max (wrap32 (i32ofUsize i - 1)) 0).toNat := by
  simp [App.select_previous, hd, hs]

/-- The narrowing cast is invisible below 2 ^ 31: there the computed
predecessor agrees with the mathematical clamp. -/
theorem select_previous_small (i : Nat) (h : i < 2 ^ 31) :
    (max (wrap32 (i32ofUsize i - 1)) 0).toNat = i - 1 := by
  unfold i32ofUsize wrap32
  omega

/-- C1 (amended): replacing the download list by a refresh never modifies
the selection — whatever the prior selection was, `fetch_downloads`
carries it through unchanged, whether the call succeeds or fails and
whatever the length of the fetched list; no clamping to the new length
and no clearing on an empty list occurs. -/
theorem claim_C1_refresh_keeps_selection (app : App) (resp : FetchResponse) (now : Nat) :
    (App.fetch_downloads app resp now).1.selected_download = app.selected_download := by
  cases resp with
  | transportErr => rfl
  | ok status body =>
      by_cases h : 200 ≤ status ∧ status ≤ 299
      · simp only [App.fetch_downloads, if_pos h]
        cases decodeDownloadList body <;> rfl
      · simp only [App.fetch_downloads, if_neg h]
/-- C1 (counterexample): from the state `appAB` (two downloads, selection
`some 1`), a successful refresh delivering the one-element list `[dlA]`
leaves the selection at `some 1`, not at `some (min 1 (1 - 1)) = some 0`
as the claimed preservation policy requires. -/
theorem claim_C1_counterexample :
    (App.fetch_downloads appAB (.ok 200 (Json.arr [jsonRecordA])) 7).2 = none ∧
    (App.fetch_downloads appAB (.ok 200 (Json.arr [jsonRecordA])) 7).1.downloads = [dlA] ∧
    appAB.selected_download = some 1 ∧
    (App.fetch_downloads appAB (.ok 200 (Json.arr [jsonRecordA])) 7).1.selected_download ≠
      some (min 1 ((1 : Nat) - 1)) := by
  decide
/-- C2 (code bug): the state `appAB` satisfies the selection invariant
(selection `some 1`, list length 2), yet a successful refresh that
replaces the list with the shorter `[dlA]` yields a state violating it:
the selection stays `some 1` while the list length is 1, so the selected
index is no longer a valid index. -/
theorem claim_C2_invariant_broken :
    App.selectionOk appAB = true ∧
    (App.fetch_downloads appAB (.ok 200 (Json.arr [jsonRecordA])) 7).2 = none ∧
    App.selectionOk (App.fetch_downloads appAB (.ok 200 (Json.arr [jsonRecordA])) 7).1 =
      false := by
  decide
/-- C3 (code bug): under the untagged serde codec the raw string
"Error: disk full" deserializes to `RetryingWithMessage "Error: disk full"`
— not to the Error variant carrying the message "disk full" — and even a
bare lowercase keyword such as "downloading" lands in
`RetryingWithMessage`: no keyword matching, case-insensitive or
otherwise, ever happens. -/
theorem claim_C3_untagged_parse :
    DownloadStatus.deserialize (Json.str "Error: disk full") =
      some (DownloadStatus.RetryingWithMessage "Error: disk full") ∧
    DownloadStatus.deserialize (Json.str "Error: disk full") ≠
      some (DownloadStatus.ErrorWithMessage "disk full") ∧
    DownloadStatus.deserialize (Json.str "downloading") =
      some (DownloadStatus.RetryingWithMessage "downloading") := by
  decide
/-- C4 (code bug): the parse-display round trip fails for every status
value: deserializing the displayed string of any status yields
`RetryingWithMessage` applied to that whole string, so in particular the
display "Completed" of `Completed` comes back as
`RetryingWithMessage "Completed"`, not `Completed`. -/
theorem claim_C4_roundtrip_fails :
    (∀ s : DownloadStatus,
        DownloadStatus.deserialize (Json.str s.display) =
          some (DownloadStatus.RetryingWithMessage s.display)) ∧
    DownloadStatus.deserialize (Json.str DownloadStatus.Completed.display) ≠
      some DownloadStatus.Completed := by
  refine ⟨fun s => rfl, by decide⟩
/-- C5 (amended): a control operation posts to
`{base}/{name}/{action}` — the URL built by `controlUrl`, with no
`/downloads` segment — and succeeds exactly when the response of the
network at that URL carries a 2xx status. -/
theorem claim_C5_control_success (app : App) (model_name action : String)
    (net : String → ControlResponse) :
    App.control_download app model_name action net = .ok () ↔
      ∃ status, net (controlUrl app.downloader_url model_name action) =
          ControlResponse.ok status ∧ 200 ≤ status ∧ status ≤ 299 := by
  unfold App.control_download
  cases h : net (controlUrl app.downloader_url model_name action) with
  | transportErr => simp
  | ok status =>
      by_cases h2 : 200 ≤ status ∧ status ≤ 299
      · simp [if_pos h2, h2]
      · simp [if_neg h2]
        intro heq
        omega
/-- C5 (counterexample): against a network that answers 2xx exactly at
the URL the specification prescribes (`http://h/downloads/m/stop`) and
fails transport everywhere else, stopping model "m" fails: the code posts
to `http://h/m/stop`, which differs from the prescribed URL. -/
theorem claim_C5_counterexample :
    specOnlyNet (specControlUrl "http://h" "m" "stop") = .ok 200 ∧
    controlUrl "http://h" "m" "stop" ≠ specControlUrl "http://h" "m" "stop" ∧
    App.control_download ⟨"http://h", [], none, .Normal, "", 0⟩ "m" "stop" specOnlyNet =
      .error "transport error" := by
  refine ⟨by decide, by decide, rfl⟩
/-- C6 (confirmed): whenever a refresh attempt fails — transport failure,
non-2xx status, or a decode failure (including a record with an
unparsable status) — the application state is returned completely
unchanged: list, selection and last-refresh timestamp all keep their
prior values. -/
theorem claim_C6_failed_refresh_unchanged (app : App) (resp : FetchResponse) (now : Nat)
    (h : (App.fetch_downloads app resp now).2 ≠ none) :
    (App.fetch_downloads app resp now).1 = app := by
  cases resp with
  | transportErr => rfl
  | ok status body =>
      by_cases hs : 200 ≤ status ∧ status ≤ 299
      · simp only [App.fetch_downloads, if_pos hs] at h ⊢
        cases hd : decodeDownloadList body with
        | none => simp [hd]
        | some list => simp [hd] at h
      · simp only [App.fetch_downloads, if_neg hs]
/-- C6 (witness): a refresh whose body contains a record with an
unparsable status (a JSON number) fails, and the state `appAB` comes
through unchanged. -/
theorem claim_C6_witness :
    (App.fetch_downloads appAB (.ok 200 (Json.arr [jsonRecordBad])) 9).2 ≠ none ∧
    (App.fetch_downloads appAB (.ok 200 (Json.arr [jsonRecordBad])) 9).1 = appAB :=
  ⟨by decide, claim_C6_failed_refresh_unchanged appAB (.ok 200 (Json.arr [jsonRecordBad])) 9
      (by decide)⟩
/-- C7 (confirmed): after any sequence of key events whose last event
moves the input mode out of `AddingDownload` back to `Normal` (only
Enter and Escape do), the input buffer of the resulting state is
empty. -/
theorem claim_C7_buffer_empty_on_exit (app : App) (ks : List KeyEvent) (k : KeyEvent)
    (h1 : (run app ks).input_mode = InputMode.AddingDownload)
    (h2 : (step (run app ks) k).1.input_mode = InputMode.Normal) :
    (run app (ks ++ [k])).input_buffer = "" := by
  have hrun : run app (ks ++ [k]) = (step (run app ks) k).1 := by
    unfold run
    rw [List.foldl_append]
    rfl
  rw [hrun]
  cases k <;> simp_all [step]
/-- C7 (witness): from the add-mode state `appAdd` with buffer
"http://x", Escape returns the mode to `Normal` and the buffer is
empty afterwards. -/
theorem claim_C7_witness :
    (run appAdd []).input_mode = InputMode.AddingDownload ∧
    (step (run appAdd []) KeyEvent.esc).1.input_mode = InputMode.Normal ∧
    (run appAdd [KeyEvent.esc]).input_buffer = "" :=
  ⟨by decide, by decide,
    claim_C7_buffer_empty_on_exit appAdd [] KeyEvent.esc (by decide) (by decide)⟩
/-- C8 (amended): in `AddingDownload` mode a confirm (Enter) drains the
buffer, returns the mode to `Normal`, and always dispatches a
create-download action carrying the drained text — also when that text
is empty; the code has no emptiness check before spawning the create
task. -/
theorem claim_C8_confirm_dispatch (app : App)
    (h : app.input_mode = InputMode.AddingDownload) :
    (step app KeyEvent.enter).1.input_buffer = "" ∧
    (step app KeyEvent.enter).1.input_mode = InputMode.Normal ∧
    (step app KeyEvent.enter).2 = [UiAction.createDownload app.input_buffer] := by
  simp [step, h]
/-- C8 (witness): confirming from `appAdd` (buffer "http://x") empties
the buffer, returns to `Normal`, and dispatches the create action with
the drained text. -/
theorem claim_C8_witness :
    (step appAdd KeyEvent.enter).1.input_buffer = "" ∧
    (step appAdd KeyEvent.enter).1.input_mode = InputMode.Normal ∧
    (step appAdd KeyEvent.enter).2 = [UiAction.createDownload appAdd.input_buffer] :=
  claim_C8_confirm_dispatch appAdd rfl
/-- C8 (counterexample): confirming from `appAddEmpty`, whose buffer is
empty, still dispatches a create action (with the empty string as URL);
an empty confirm is not a no-op beyond the mode transition. -/
theorem claim_C8_counterexample :
    appAddEmpty.input_buffer = "" ∧
    (step appAddEmpty KeyEvent.enter).2 = [UiAction.createDownload ""] ∧
    (step appAddEmpty KeyEvent.enter).2 ≠ [] := by
  decide
/-- C9 (amended): on an empty list both selection moves yield `none`
whatever the prior selection was; on a non-empty list with a selected
valid index `i`, `select_next` yields `some (min (i + 1) (len - 1))`,
and `select_previous` yields the clamped predecessor `some (i - 1)`
whenever `i < 2 ^ 31` — the code narrows the index through `i32`, so for
valid indices at or above 2 ^ 31 + 1 the computed value follows the
wrapped cast instead of the mathematical clamp. -/
theorem claim_C9_selection_moves (app : App) :
    (app.downloads = [] →
      app.select_next.selected_download = none ∧
      app.select_previous.selected_download = none) ∧
    (∀ i, app.downloads ≠ [] → app.selected_download = some i →
      i < app.downloads.length →
      app.select_next.selected_download = some (min (i + 1) (app.downloads.length - 1)) ∧
      (i < 2 ^ 31 → app.select_previous.selected_download = some (i - 1))) := by
  constructor
  · intro h
    simp [App.select_next, App.select_previous, h]
  · intro i hne hsel _
    cases hd : app.downloads with
    | nil => exact absurd hd hne
    | cons d ds =>
        constructor
        · simp [App.select_next, hd, hsel]
        · intro hsmall
          rw [select_previous_eval app d ds i hd hsel, select_previous_small i hsmall]
/-- C9 (witness): on `appAB` (two downloads, selection `some 1`, a valid
index), `select_next` yields `some (min 2 1) = some 1` and
`select_previous` yields `some 0`. -/
theorem claim_C9_witness :
    appAB.select_next.selected_download = some (min (1 + 1) (appAB.downloads.length - 1)) ∧
    appAB.select_previous.selected_download = some (1 - 1) := by
  have h := (claim_C9_selection_moves appAB).2 1 (by decide) rfl (by decide)
  exact ⟨h.1, h.2 (by norm_num)⟩
/-- C9 (counterexample): on a list of length 2 ^ 31 + 2 with the valid
index 2 ^ 31 + 1 selected, `select_previous` yields `some 0` — the index
is narrowed through `i32` and wraps — instead of the claimed
`some (max (i - 1) 0) = some (2 ^ 31)`. -/
theorem claim_C9_counterexample :
    appHuge.downloads ≠ [] ∧
    2 ^ 31 + 1 < appHuge.downloads.length ∧
    appHuge.selected_download = some (2 ^ 31 + 1) ∧
    appHuge.select_previous.selected_download = some 0 ∧
    (0 : Nat) ≠ 2 ^ 31 + 1 - 1 := by
  have hd : appHuge.downloads = dlA :: List.replicate (2 ^ 31 + 1) dlA := by
    show List.replicate (2 ^ 31 + 2) dlA = _
    rw [show (2 : Nat) ^ 31 + 2 = (2 ^ 31 + 1) + 1 by norm_num, List.replicate_succ]
  have hlen : appHuge.downloads.length = 2 ^ 31 + 2 := by
    show (List.replicate (2 ^ 31 + 2) dlA).length = 2 ^ 31 + 2
    exact List.length_replicate _ _
  refine ⟨?_, ?_, rfl, ?_, by norm_num⟩
  · rw [hd]
    exact List.cons_ne_nil _ _
  · rw [hlen]
    norm_num
  · rw [select_previous_eval appHuge dlA (List.replicate (2 ^ 31 + 1) dlA) (2 ^ 31 + 1) hd rfl]
    have hv : (max (wrap32 (i32ofUsize (2 ^ 31 + 1) - 1)) 0).toNat = 0 := by
      unfold i32ofUsize wrap32
      omega
    rw [hv]
/-- C10 (amended): the refresh task and each dispatched control action
acquire and release exclusive access separately for each step — the
control task takes the lock twice, once around the control POST and once
around the trailing refresh — but every acquisition is held across the
network round trip of its step: both task scripts perform a network step
while the lock is held. -/
theorem claim_C10_lock_across_net :
    netWhileLocked refreshTick 0 = true ∧
    netWhileLocked controlActionTask 0 = true ∧
    lockCount refreshTick = 1 ∧
    lockCount controlActionTask = 2 := by
  decide
/-- C10 (counterexample): the refresh task performs its network round
trip while holding exclusive access — its step script locks, then
fetches over the network, then commits, then unlocks — refuting the
claim that exclusive access is never held across a network round
trip. -/
theorem claim_C10_counterexample :
    netWhileLocked refreshTick 0 = true ∧
    refreshTick = [TaskStep.lock, TaskStep.net, TaskStep.mutate, TaskStep.unlock] := by
  decide
